import Mathlib

/-!
Shallow embedding of `src/pybambu/bambulab.py`: the `BambuLab` device-state
aggregator with its connection lifecycle (`connect`, `subscribe`,
`disconnect`), the `on_message` merge handler, and the bounded one-shot
retrieval `get_device`.  The `Device` model (`pybambu/models.py`) is not part
of the provided sources; its constructor and `update_from_dict` are modelled
from the spec where noted.  Raised Python exceptions are embedded as
`Except.error`; mutation of `self` is embedded as explicit state passing.
-/

/-- JSON-like values carried in payload fields. -/
inductive Val where
  | str (s : String)
  | num (n : Int)
  | flag (b : Bool)
deriving DecidableEq, Repr

/-- Python exceptions relevant to the embedded code paths: `oserror` stands
for the transport-level socket error raised by the MQTT client's `connect`
against an unreachable endpoint, `attributeError` for attribute access on
`None`, `jsonDecodeError` for a `json.loads` failure, and
`bambuLabConnectionError` for the imported typed error (which the code never
actually raises). -/
inductive PyErr where
  | oserror
  | attributeError
  | jsonDecodeError
  | bambuLabConnectionError
deriving DecidableEq, Repr

/-- A raw message payload: either decodable structured data (a JSON object,
represented as an association list) or malformed bytes. -/
inductive RawPayload where
  | valid (fields : List (String × Val))
  | malformed
deriving DecidableEq, Repr

/-- `json.loads` applied to a raw payload: the decoded object, or a raised
decode error. -/
def jsonLoads : RawPayload → Except PyErr (List (String × Val))
  | RawPayload.valid fields => Except.ok fields
  | RawPayload.malformed => Except.error PyErr.jsonDecodeError

/-- Modelled from the spec: the `Device` model (`pybambu/models.py`, not under
the provided sources) is a mutable aggregate keyed by field name. -/
structure Device where
  fields : List (String × Val)
deriving DecidableEq, Repr

/-- Dictionary write into an aggregate: overwrite the entry for `k` if one is
present, otherwise append a new entry. -/
def setField : List (String × Val) → String → Val → List (String × Val)
  | [], k, v => [(k, v)]
  | p :: fs, k, v => if p.1 = k then (k, v) :: fs else p :: setField fs k v

/-- Dictionary lookup in an aggregate. -/
def getField : List (String × Val) → String → Option Val
  | [], _ => none
  | p :: fs, k => if p.1 = k then some p.2 else getField fs k

/-- Fold a payload's fields into an aggregate, left to right (a later entry
for the same key overwrites an earlier one, as in a Python dict). -/
def updateFields (fs : List (String × Val)) (data : List (String × Val)) :
    List (String × Val) :=
  data.foldl (fun acc kv => setField acc kv.1 kv.2) fs

/-- Modelled from the spec: `Device.update_from_dict` merges an incoming
partial field set into the existing aggregate field by field — new fields
added, existing fields overwritten, fields absent from the update left
untouched. -/
def Device.update_from_dict (d : Device) (data : List (String × Val)) : Device :=
  Device.mk (updateFields d.fields data)

/-- Modelled from the spec: the `Device(...)` constructor initialises the
state from the full decoded payload. -/
def Device.fromPayload (data : List (String × Val)) : Device :=
  Device.mk (updateFields [] data)

/-- `pick a b` is `a` unless `a` is absent, in which case it is `b`
(a total version of `Option.orElse`). -/
def pick {α : Type} (a b : Option α) : Option α :=
  match a with
  | some v => some v
  | none => b

/-- The last value a single payload gives to key `k` (later entries win, as
in a Python dict literal). -/
def lookupLast (k : String) : List (String × Val) → Option Val
  | [] => none
  | p :: rest => pick (lookupLast k rest) (if p.1 = k then some p.2 else none)

/-- The last value any payload in the sequence gives to key `k` (later
payloads win). -/
def lastWrite (k : String) : List (List (String × Val)) → Option Val
  | [] => none
  | p :: ps => pick (lastWrite k ps) (lookupLast k p)

/-- The `on_message` closure registered by `subscribe`, acting on the current
`self._device`: if no device exists yet, one is first constructed from the
decoded payload (`Device(json.loads(msg.payload))`); then — in all cases —
the payload is decoded again and merged via `update_from_dict`.  A decode
failure is raised out of the handler, not caught. -/
def onMessage (dev : Option Device) (raw : RawPayload) : Except PyErr Device :=
  match dev with
  | none =>
    match jsonLoads raw with
    | Except.error e => Except.error e
    | Except.ok d0 =>
      match jsonLoads raw with
      | Except.error e => Except.error e
      | Except.ok d1 => Except.ok ((Device.fromPayload d0).update_from_dict d1)
  | some dv =>
    match jsonLoads raw with
    | Except.error e => Except.error e
    | Except.ok d1 => Except.ok (dv.update_from_dict d1)

/-- The device state after a sequence of payloads has been delivered to the
handler: a successful handling replaces the state, a raised decode error
leaves it untouched. -/
def runMessages : Option Device → List RawPayload → Option Device
  | dev, [] => dev
  | dev, m :: ms =>
    match onMessage dev m with
    | Except.ok d => runMessages (some d) ms
    | Except.error _ => runMessages dev ms

/-- Field lookup through the possibly-absent device state. -/
def getFieldOpt (dev : Option Device) (k : String) : Option Val :=
  match dev with
  | none => none
  | some d => getField d.fields k

/-- The paho MQTT client object, reduced to the attributes this code touches:
registered handlers, the connected endpoint, the background loop flag and the
subscribed topic filters. -/
structure Client where
  hasOnConnect : Bool := false
  hasOnMessage : Bool := false
  connectedTo : Option (String × Nat) := none
  loopRunning : Bool := false
  subs : List String := []
deriving DecidableEq, Repr

/-- The `BambuLab` dataclass: the host plus the `_client`, `_close_session`
and `_device` fields with their declared defaults. -/
structure BambuLab where
  host : String
  _client : Option Client := none
  _close_session : Bool := false
  _device : Option Device := none
deriving DecidableEq, Repr

/-- A freshly constructed `BambuLab(host)` dataclass instance. -/
def BambuLab.init (host : String) : BambuLab :=
  { host := host }

/-- `connect`: assign a fresh client to `self._client`, set its connect
handler, then attempt the transport connection on port 1883 and start the
delivery loop.  The environment `reachable` decides whether the endpoint
answers; an unreachable endpoint makes the transport raise — after `_client`
has already been replaced.  The returned state is `self` at return or at the
raise point. -/
def connect (reachable : String → Bool) (s : BambuLab) :
    BambuLab × Except PyErr Client :=
  let c1 : Client := { hasOnConnect := true }
  let s1 := { s with _client := some c1 }
  if reachable s.host then
    let c3 : Client :=
      { c1 with connectedTo := some (s.host, 1883), loopRunning := true }
    ({ s1 with _client := some c3 }, Except.ok c3)
  else
    (s1, Except.error PyErr.oserror)

/-- `subscribe`: set `self._client.on_message` and subscribe to `device/#`.
If `_client` is still `None`, the attribute assignment on `None` raises an
`AttributeError`. -/
def subscribe (s : BambuLab) : BambuLab × Except PyErr Unit :=
  match s._client with
  | none => (s, Except.error PyErr.attributeError)
  | some c =>
    let c2 : Client := { c with hasOnMessage := true, subs := c.subs ++ ["device/#"] }
    ({ s with _client := some c2 }, Except.ok ())

/-- Observable teardown calls issued by `disconnect` on the client. -/
inductive TeardownAction where
  | loopStop
  | clientDisconnect
deriving DecidableEq, Repr

/-- `disconnect`: if no client exists this is a logged no-op; otherwise stop
the background loop and close the connection.  The `_client` and `_device`
fields are never reassigned. -/
def disconnect (s : BambuLab) : BambuLab × List TeardownAction :=
  match s._client with
  | none => (s, [])
  | some c =>
    let c2 : Client := { c with loopRunning := false, connectedTo := none }
    ({ s with _client := some c2 },
      [TeardownAction.loopStop, TeardownAction.clientDisconnect])

/-- One delivery-loop step: run `on_message` on the aggregator; on success the
device state is replaced and the caller-supplied callback fires (second
component `true`), on a raised decode error the state is untouched and the
callback does not fire. -/
def handleMessage (s : BambuLab) (raw : RawPayload) : BambuLab × Bool :=
  match onMessage s._device raw with
  | Except.ok d => ({ s with _device := some d }, true)
  | Except.error _ => (s, false)

/-- The background delivery loop over a list of inbound payloads, tracking the
aggregator state and whether the callback has fired at least once (the
`device` local of `get_device` is non-`None` exactly when it has). -/
def deliveryLoop : BambuLab × Bool → List RawPayload → BambuLab × Bool
  | acc, [] => acc
  | acc, m :: ms =>
    match onMessage acc.1._device m with
    | Except.ok d => deliveryLoop ({ acc.1 with _device := some d }, true) ms
    | Except.error _ => deliveryLoop acc ms

/-- The fixed wait window of `get_device` (`await asyncio.sleep(5)`). -/
def waitWindow : Nat := 5

/-- `get_device`: connect, subscribe (as a fire-and-forget task), sleep the
full fixed window, disconnect, and return the `device` local recorded by the
callback.  `msgs` are the inbound payloads with their arrival times; only
those arriving inside the window are delivered.  The result carries the final
aggregator state, the returned value (or the raised connect error), and the
time the call spent suspended. -/
def get_device (reachable : String → Bool) (msgs : List (Nat × RawPayload))
    (s : BambuLab) : BambuLab × Except PyErr (Option Device) × Nat :=
  match connect reachable s with
  | (s1, Except.error e) => (s1, Except.error e, 0)
  | (s1, Except.ok _) =>
    let s2 := (subscribe s1).1
    let delivered := (msgs.filter (fun m => decide (m.1 < waitWindow))).map Prod.snd
    let res := deliveryLoop (s2, false) delivered
    let s4 := (disconnect res.1).1
    (s4, Except.ok (if res.2 then res.1._device else none), waitWindow)

/-- The device produced by a successful `on_message` on a decodable payload
(initialise-then-merge when the state was absent, plain merge otherwise). -/
def mergePayload (dev : Option Device) (p : List (String × Val)) : Device :=
  match dev with
  | none => (Device.fromPayload p).update_from_dict p
  | some d => d.update_from_dict p

/-- The client value held in `_client` right after a successful `connect`. -/
def connectedClient (host : String) : Client :=
  { hasOnConnect := true, connectedTo := some (host, 1883), loopRunning := true }

/-- The client value held in `_client` at the moment a failed `connect`
raises: freshly constructed, connect handler set, never connected. -/
def freshClient : Client :=
  { hasOnConnect := true }

/-- The client value after `subscribe` has registered the message handler and
subscribed to the `device/#` topic space. -/
def subscribedClient (c : Client) : Client :=
  { c with hasOnMessage := true, subs := c.subs ++ ["device/#"] }

/-- The client value after `disconnect` has stopped the loop and closed the
connection. -/
def closedClient (c : Client) : Client :=
  { c with loopRunning := false, connectedTo := none }

theorem pick_none_right {α : Type} (a : Option α) : pick a none = a := by
  cases a <;> rfl

theorem pick_assoc {α : Type} (a b c : Option α) :
    pick (pick a b) c = pick a (pick b c) := by
  cases a <;> rfl

theorem pick_isSome_right {α : Type} (a b : Option α) (h : b.isSome = true) :
    (pick a b).isSome = true := by
  cases a <;> simp [pick, h]

theorem getField_setField (fs : List (String × Val)) (k k' : String) (v : Val) :
    getField (setField fs k v) k' = if k' = k then some v else getField fs k' := by
  induction fs with
  | nil =>
    by_cases h : k' = k
    · simp [setField, getField, h]
    · simp [setField, getField, h, Ne.symm h]
  | cons p fs ih =>
    by_cases hp : p.1 = k
    · by_cases h : k' = k
      · simp [setField, getField, hp, h]
      · simp [setField, getField, hp, h, Ne.symm h]
    · by_cases h : k' = k
      · subst h
        simp [setField, getField, hp, ih]
      · by_cases hq : p.1 = k' <;> simp [setField, getField, hp, h, hq, ih]

theorem getField_updateFields (data fs : List (String × Val)) (k : String) :
    getField (updateFields fs data) k = pick (lookupLast k data) (getField fs k) := by
  induction data generalizing fs with
  | nil => rfl
  | cons a data ih =>
    have hstep : updateFields fs (a :: data) = updateFields (setField fs a.1 a.2) data := rfl
    rw [hstep, ih, getField_setField]
    have hlast : lookupLast k (a :: data) =
        pick (lookupLast k data) (if a.1 = k then some a.2 else none) := rfl
    rw [hlast, pick_assoc]
    by_cases h : a.1 = k
    · subst h
      cases hL : lookupLast a.1 data <;> simp [pick]
    · cases hL : lookupLast k data <;> simp [pick, h, Ne.symm h]

theorem onMessage_valid_ok (dev : Option Device) (p : List (String × Val)) :
    onMessage dev (RawPayload.valid p) = Except.ok (mergePayload dev p) := by
  cases dev <;> rfl

theorem onMessage_malformed (dev : Option Device) :
    onMessage dev RawPayload.malformed = Except.error PyErr.jsonDecodeError := by
  cases dev <;> rfl

theorem runMessages_cons (dev : Option Device) (m : RawPayload) (ms : List RawPayload) :
    runMessages dev (m :: ms) = runMessages (runMessages dev [m]) ms := by
  cases h : onMessage dev m <;> simp [runMessages, h]

theorem runMessages_single_valid (dev : Option Device) (p : List (String × Val))
    (k : String) :
    getFieldOpt (runMessages dev [RawPayload.valid p]) k =
      pick (lookupLast k p) (getFieldOpt dev k) := by
  cases dev with
  | none =>
    show getField (updateFields (updateFields [] p) p) k = pick (lookupLast k p) none
    rw [getField_updateFields, getField_updateFields]
    show pick (lookupLast k p) (pick (lookupLast k p) (getField [] k)) =
      pick (lookupLast k p) none
    cases lookupLast k p <;> rfl
  | some d =>
    show getField (updateFields d.fields p) k = pick (lookupLast k p) (getField d.fields k)
    exact getField_updateFields p d.fields k

theorem runMessages_valid (ps : List (List (String × Val))) (dev : Option Device)
    (k : String) :
    getFieldOpt (runMessages dev (ps.map RawPayload.valid)) k =
      pick (lastWrite k ps) (getFieldOpt dev k) := by
  induction ps generalizing dev with
  | nil => rfl
  | cons p ps ih =>
    rw [List.map_cons, runMessages_cons, ih, runMessages_single_valid, ← pick_assoc]
    rfl

theorem runMessages_isSome (dev : Option Device) (ms : List RawPayload) (k : String)
    (h : (getFieldOpt dev k).isSome = true) :
    (getFieldOpt (runMessages dev ms) k).isSome = true := by
  induction ms generalizing dev with
  | nil => exact h
  | cons m ms ih =>
    rw [runMessages_cons]
    apply ih
    cases m with
    | valid p =>
      rw [runMessages_single_valid]
      exact pick_isSome_right _ _ h
    | malformed =>
      have hid : runMessages dev [RawPayload.malformed] = dev := by
        cases dev <;> rfl
      rw [hid]
      exact h

theorem runMessages_some (d : Device) (ms : List RawPayload) :
    (runMessages (some d) ms).isSome = true := by
  induction ms generalizing d with
  | nil => rfl
  | cons m ms ih =>
    cases m with
    | valid p => simp [runMessages, onMessage_valid_ok, ih]
    | malformed => simp [runMessages, onMessage_malformed, ih]

theorem deliveryLoop_fst (ms : List RawPayload) (s : BambuLab) (b : Bool) :
    (deliveryLoop (s, b) ms).1 = { s with _device := runMessages s._device ms } := by
  induction ms generalizing s b with
  | nil => rfl
  | cons m ms ih =>
    cases h : onMessage s._device m with
    | ok d =>
      show (deliveryLoop _ (m :: ms)).1 = _
      rw [show deliveryLoop (s, b) (m :: ms) =
          deliveryLoop ({ s with _device := some d }, true) ms from by
        simp [deliveryLoop, h]]
      rw [ih]
      simp [runMessages, h]
    | error e =>
      rw [show deliveryLoop (s, b) (m :: ms) = deliveryLoop (s, b) ms from by
        simp [deliveryLoop, h]]
      rw [ih]
      simp [runMessages, h]

theorem connect_ok (s : BambuLab) (reachable : String → Bool)
    (hr : reachable s.host = true) :
    connect reachable s =
      ({ s with _client := some (connectedClient s.host) },
        Except.ok (connectedClient s.host)) := by
  simp [connect, hr, connectedClient]

theorem connect_fail (s : BambuLab) (reachable : String → Bool)
    (hr : reachable s.host = false) :
    connect reachable s =
      ({ s with _client := some freshClient }, Except.error PyErr.oserror) := by
  simp [connect, hr, freshClient]

theorem subscribe_some (s : BambuLab) (c : Client) (h : s._client = some c) :
    subscribe s =
      ({ s with _client := some (subscribedClient c) }, Except.ok ()) := by
  simp [subscribe, h, subscribedClient]

theorem disconnect_some (s : BambuLab) (c : Client) (h : s._client = some c) :
    disconnect s =
      ({ s with _client := some (closedClient c) },
        [TeardownAction.loopStop, TeardownAction.clientDisconnect]) := by
  simp [disconnect, h, closedClient]

theorem connect_fst_device (reachable : String → Bool) (s : BambuLab) :
    (connect reachable s).1._device = s._device := by
  cases hr : reachable s.host
  · rw [connect_fail s reachable hr]
  · rw [connect_ok s reachable hr]

theorem connect_fst_host (reachable : String → Bool) (s : BambuLab) :
    (connect reachable s).1.host = s.host := by
  cases hr : reachable s.host
  · rw [connect_fail s reachable hr]
  · rw [connect_ok s reachable hr]

theorem subscribe_fst_device (s : BambuLab) : (subscribe s).1._device = s._device := by
  cases h : s._client
  · simp [subscribe, h]
  · simp [subscribe, h]

theorem subscribe_fst_host (s : BambuLab) : (subscribe s).1.host = s.host := by
  cases h : s._client
  · simp [subscribe, h]
  · simp [subscribe, h]

theorem disconnect_fst_device (s : BambuLab) : (disconnect s).1._device = s._device := by
  cases h : s._client
  · simp [disconnect, h]
  · simp [disconnect, h]

theorem disconnect_fst_host (s : BambuLab) : (disconnect s).1.host = s.host := by
  cases h : s._client
  · simp [disconnect, h]
  · simp [disconnect, h]

theorem runMessages_single_valid_eq (dev : Option Device) (p : List (String × Val)) :
    runMessages dev [RawPayload.valid p] = some (mergePayload dev p) := by
  simp [runMessages, onMessage_valid_ok]

theorem deliveryLoop_single_valid (s : BambuLab) (b : Bool) (p : List (String × Val)) :
    deliveryLoop (s, b) [RawPayload.valid p] =
      ({ s with _device := some (mergePayload s._device p) }, true) := by
  simp [deliveryLoop, onMessage_valid_ok]

/-- C1: for every sequence of decodable payload fragments delivered to a
subscription on an initially-absent device state, each field of the resulting
aggregate holds the value given by the last fragment that mentioned it — so
the field set is exactly the union of the fragments' field sets (present iff
some fragment mentions it) — and a field already present in the state is
never deleted by any further delivery. -/
theorem c1_merge_last_write_wins (ps : List (List (String × Val))) (k : String)
    (dev : Option Device) (ms : List RawPayload)
    (h : (getFieldOpt dev k).isSome = true) :
    getFieldOpt (runMessages none (ps.map RawPayload.valid)) k = lastWrite k ps ∧
    (getFieldOpt (runMessages dev ms) k).isSome = true := by
  constructor
  · rw [runMessages_valid]
    exact pick_none_right _
  · exact runMessages_isSome dev ms k h

/-- Witness for C1 at the spec's worked example, with a pre-populated state
surviving a malformed delivery followed by a valid one. -/
theorem c1_merge_last_write_wins_witness :
    getFieldOpt (runMessages none ([[("temp", Val.num 20)], [("fan", Val.str "on")], [("temp", Val.num 25)]].map RawPayload.valid)) "temp" =
      lastWrite "temp" [[("temp", Val.num 20)], [("fan", Val.str "on")], [("temp", Val.num 25)]] ∧
    (getFieldOpt (runMessages (some (Device.mk [("temp", Val.num 20)])) [RawPayload.malformed, RawPayload.valid [("fan", Val.str "on")]]) "temp").isSome = true :=
  c1_merge_last_write_wins
    [[("temp", Val.num 20)], [("fan", Val.str "on")], [("temp", Val.num 25)]] "temp"
    (some (Device.mk [("temp", Val.num 20)]))
    [RawPayload.malformed, RawPayload.valid [("fan", Val.str "on")]] (by decide)

/-- C2 counterexample: a `connect` against an unreachable endpoint does not
leave the aggregator in its pre-connect state — the `_client` field has been
replaced before the raise — and the raised error is the transport's socket
error, not a typed `BambuLab` connection error. -/
theorem c2_counterexample :
    (connect (fun _h => false) (BambuLab.init "printer.local")).1 ≠
      BambuLab.init "printer.local" ∧
    (connect (fun _h => false) (BambuLab.init "printer.local")).2 =
      Except.error PyErr.oserror := by
  constructor
  · decide
  · rfl

/-- C2 amended: calling `connect` on an unreachable endpoint raises the
transport's connection error unwrapped (the typed `BambuLabConnectionError`
of the docstring is never raised), and the aggregator is not left in its
pre-connect state: `_client` has already been replaced by a fresh,
never-connected client, while the `_device`, `host` and `_close_session`
fields are unchanged. -/
theorem c2_connect_unreachable (s : BambuLab) (reachable : String → Bool)
    (hr : reachable s.host = false) :
    (connect reachable s).2 = Except.error PyErr.oserror ∧
    (connect reachable s).1._client = some freshClient ∧
    (connect reachable s).1._device = s._device ∧
    (connect reachable s).1.host = s.host ∧
    (connect reachable s).1._close_session = s._close_session := by
  rw [connect_fail s reachable hr]
  exact ⟨rfl, rfl, rfl, rfl, rfl⟩

/-- Witness for C2's amended claim on a concrete unreachable endpoint. -/
theorem c2_connect_unreachable_witness :
    (connect (fun _h => false) (BambuLab.init "x")).2 = Except.error PyErr.oserror ∧
    (connect (fun _h => false) (BambuLab.init "x")).1._client = some freshClient ∧
    (connect (fun _h => false) (BambuLab.init "x")).1._device = (BambuLab.init "x")._device ∧
    (connect (fun _h => false) (BambuLab.init "x")).1.host = (BambuLab.init "x").host ∧
    (connect (fun _h => false) (BambuLab.init "x")).1._close_session = (BambuLab.init "x")._close_session :=
  c2_connect_unreachable (BambuLab.init "x") (fun _h => false) rfl

/-- C3 counterexample: the handler does propagate the failure — on a
malformed payload `on_message` raises the JSON decode error instead of
logging and dropping the message. -/
theorem c3_counterexample :
    onMessage (some (Device.mk [("temp", Val.num 20)])) RawPayload.malformed =
      Except.error PyErr.jsonDecodeError := rfl

/-- C3 amended: `on_message` contains no error handling — a payload that is
not decodable raises the decode error out of the handler (nothing is caught
or logged there) — but the device state is left exactly as it was before the
message, and, provided the transport keeps delivering, every subsequent
payload is handled exactly as if the malformed message had never arrived. -/
theorem c3_malformed_contained (dev : Option Device) (ms : List RawPayload) :
    onMessage dev RawPayload.malformed = Except.error PyErr.jsonDecodeError ∧
    runMessages dev (RawPayload.malformed :: ms) = runMessages dev ms := by
  refine ⟨onMessage_malformed dev, ?_⟩
  rw [runMessages_cons]
  cases dev <;> rfl

/-- C4: a `get_device` run whose connect succeeds but in which no message
arrives inside the fixed wait window returns the absent state `none` without
raising; the absent-state outcome is an `ok` result, distinct from a raised
connection error. -/
theorem c4_snapshot_no_data_returns_none (s : BambuLab) (reachable : String → Bool)
    (msgs : List (Nat × RawPayload)) (hr : reachable s.host = true)
    (hm : msgs.filter (fun m => decide (m.1 < waitWindow)) = []) :
    (get_device reachable msgs s).2.1 = Except.ok none ∧
    (get_device reachable msgs s).2.1 ≠ Except.error PyErr.oserror := by
  have hgd : (get_device reachable msgs s).2.1 = Except.ok none := by
    unfold get_device
    rw [connect_ok s reachable hr]
    simp [hm, deliveryLoop]
  exact ⟨hgd, by rw [hgd]; exact fun hc => Except.noConfusion hc⟩

/-- Witness for C4: the only message arrives at time 7, after the window. -/
theorem c4_snapshot_no_data_returns_none_witness :
    (get_device (fun _h => true) [(7, RawPayload.valid [("temp", Val.num 20)])] (BambuLab.init "x")).2.1 = Except.ok none ∧
    (get_device (fun _h => true) [(7, RawPayload.valid [("temp", Val.num 20)])] (BambuLab.init "x")).2.1 ≠ Except.error PyErr.oserror :=
  c4_snapshot_no_data_returns_none (BambuLab.init "x") (fun _h => true)
    [(7, RawPayload.valid [("temp", Val.num 20)])] rfl (by decide)

/-- C5: with a reachable endpoint `get_device` suspends for the full fixed
wait window (5 time-units) whatever messages arrive — it never returns early
on a first message — and with exactly one decodable message arriving at a
time inside the window it returns that message's resulting state. -/
theorem c5_snapshot_full_wait_last_state (s : BambuLab) (reachable : String → Bool)
    (msgs : List (Nat × RawPayload)) (t : Nat) (p : List (String × Val))
    (hr : reachable s.host = true) (ht : t < waitWindow) :
    (get_device reachable msgs s).2.2 = waitWindow ∧
    (get_device reachable [(t, RawPayload.valid p)] s).2.1 =
      Except.ok (runMessages s._device [RawPayload.valid p]) := by
  have hft : decide (t < waitWindow) = true := by simpa using ht
  constructor
  · unfold get_device
    rw [connect_ok s reachable hr]
  · unfold get_device
    rw [connect_ok s reachable hr]
    simp only [List.filter, hft, List.map, deliveryLoop_single_valid,
      runMessages_single_valid_eq, subscribe_fst_device, if_true]

/-- Witness for C5: one message at time 1 carrying `{"temp": 20}`, plus an
unrelated run with a late malformed message for the full-wait conjunct. -/
theorem c5_snapshot_full_wait_last_state_witness :
    (get_device (fun _h => true) [(9, RawPayload.malformed)] (BambuLab.init "x")).2.2 = waitWindow ∧
    (get_device (fun _h => true) [(1, RawPayload.valid [("temp", Val.num 20)])] (BambuLab.init "x")).2.1 =
      Except.ok (runMessages (BambuLab.init "x")._device [RawPayload.valid [("temp", Val.num 20)]]) :=
  c5_snapshot_full_wait_last_state (BambuLab.init "x") (fun _h => true)
    [(9, RawPayload.malformed)] 1 [("temp", Val.num 20)] rfl (by decide)

/-- C6: calling `disconnect` on an aggregator that was never connected does
not raise: it is a logged no-op that leaves the state unchanged and issues no
teardown calls (no loop stop, no client disconnect), so no background
delivery resources are left running. -/
theorem c6_disconnect_without_connect (s : BambuLab) (h : s._client = none) :
    disconnect s = (s, []) := by
  simp [disconnect, h]

/-- Witness for C6 on a freshly constructed aggregator. -/
theorem c6_disconnect_without_connect_witness :
    disconnect (BambuLab.init "x") = (BambuLab.init "x", []) :=
  c6_disconnect_without_connect (BambuLab.init "x") rfl

/-- C8: calling `subscribe` before any `connect` (the client field still
`None`) raises an `AttributeError` from the attribute assignment on `None` —
not a typed connection error, and not a successful no-op: the precondition
that `connect` ran first is unguarded. -/
theorem c8_subscribe_without_connect (s : BambuLab) (h : s._client = none) :
    subscribe s = (s, Except.error PyErr.attributeError) := by
  simp [subscribe, h]

/-- Witness for C8 on a freshly constructed aggregator. -/
theorem c8_subscribe_without_connect_witness :
    subscribe (BambuLab.init "x") = (BambuLab.init "x", Except.error PyErr.attributeError) :=
  c8_subscribe_without_connect (BambuLab.init "x") rfl

/-- C10: on the first message (device state absent) the handler decodes the
raw payload twice and applies it twice — the resulting state is the `Device`
constructed from the decoded payload and then immediately merged again with
the same decoded payload via `update_from_dict`. -/
theorem c10_first_message_applied_twice (p : List (String × Val)) :
    onMessage none (RawPayload.valid p) =
      Except.ok ((Device.fromPayload p).update_from_dict p) := rfl

/-- C7: the device state of a freshly constructed aggregator is absent, and
once it holds some device it is never absent again — `connect`, `subscribe`,
`disconnect`, a handled message (decodable or not) and a whole `get_device`
run all preserve non-absence of `_device`. -/
theorem c7_device_state_never_absent_again (hst : String) (s : BambuLab) (d : Device)
    (reachable : String → Bool) (m : RawPayload) (msgs : List (Nat × RawPayload))
    (hd : s._device = some d) :
    (BambuLab.init hst)._device = none ∧
    ((connect reachable s).1._device).isSome = true ∧
    ((subscribe s).1._device).isSome = true ∧
    ((disconnect s).1._device).isSome = true ∧
    (((handleMessage s m).1)._device).isSome = true ∧
    (((get_device reachable msgs s).1)._device).isSome = true := by
  refine ⟨rfl, ?_, ?_, ?_, ?_, ?_⟩
  · rw [connect_fst_device, hd]; rfl
  · rw [subscribe_fst_device, hd]; rfl
  · rw [disconnect_fst_device, hd]; rfl
  · cases hm : onMessage s._device m with
    | ok d2 => simp [handleMessage, hm]
    | error e =>
      simp only [handleMessage, hm]
      rw [hd]
      rfl
  · cases hr : reachable s.host with
    | false =>
      unfold get_device
      rw [connect_fail s reachable hr]
      simp [hd]
    | true =>
      have hgd : ((get_device reachable msgs s).1)._device =
          runMessages s._device ((msgs.filter (fun m2 => decide (m2.1 < waitWindow))).map Prod.snd) := by
        unfold get_device
        rw [connect_ok s reachable hr]
        simp only [disconnect_fst_device, deliveryLoop_fst, subscribe_fst_device]
      rw [hgd, hd]
      exact runMessages_some d _

/-- Witness for C7 on a concrete aggregator that already holds a device. -/
theorem c7_device_state_never_absent_again_witness :
    (BambuLab.init "y")._device = none ∧
    ((connect (fun _h => true) { BambuLab.init "x" with _device := some (Device.mk [("temp", Val.num 20)]) }).1._device).isSome = true ∧
    ((subscribe { BambuLab.init "x" with _device := some (Device.mk [("temp", Val.num 20)]) }).1._device).isSome = true ∧
    ((disconnect { BambuLab.init "x" with _device := some (Device.mk [("temp", Val.num 20)]) }).1._device).isSome = true ∧
    (((handleMessage { BambuLab.init "x" with _device := some (Device.mk [("temp", Val.num 20)]) } RawPayload.malformed).1)._device).isSome = true ∧
    (((get_device (fun _h => true) [(0, RawPayload.malformed)] { BambuLab.init "x" with _device := some (Device.mk [("temp", Val.num 20)]) }).1)._device).isSome = true :=
  c7_device_state_never_absent_again "y"
    { BambuLab.init "x" with _device := some (Device.mk [("temp", Val.num 20)]) }
    (Device.mk [("temp", Val.num 20)]) (fun _h => true) RawPayload.malformed
    [(0, RawPayload.malformed)] rfl

/-- C9: `disconnect` leaves both the device state and the (still-present)
client handle in place — after connect, subscribe and a batch of deliveries,
disconnect changes neither `_device` nor the presence of `_client`, and a
subsequent reconnect-subscribe-deliver merges the new payloads into the
pre-disconnect state rather than starting from the absent state. -/
theorem c9_disconnect_preserves_aggregate (s : BambuLab) (reachable : String → Bool)
    (msgs1 msgs2 : List RawPayload) (hr : reachable s.host = true) :
    let s3 := (deliveryLoop ((subscribe (connect reachable s).1).1, false) msgs1).1
    let s4 := (disconnect s3).1
    let s7 := (deliveryLoop ((subscribe (connect reachable s4).1).1, false) msgs2).1
    s4._device = s3._device ∧ (s4._client).isSome = true ∧
      s7._device = runMessages (runMessages s._device msgs1) msgs2 := by
  intro s3 s4 s7
  have hc1 : (connect reachable s).1 = { s with _client := some (connectedClient s.host) } := by
    rw [connect_ok s reachable hr]
  have hc2 : (subscribe (connect reachable s).1).1 =
      { s with _client := some (subscribedClient (connectedClient s.host)) } := by
    rw [hc1, subscribe_some _ (connectedClient s.host) rfl]
  have hs3 : s3 = { s with _client := some (subscribedClient (connectedClient s.host)), _device := runMessages s._device msgs1 } := by
    show (deliveryLoop ((subscribe (connect reachable s).1).1, false) msgs1).1 = _
    rw [hc2, deliveryLoop_fst]
  have hs4 : s4 = { s with _client := some (closedClient (subscribedClient (connectedClient s.host))), _device := runMessages s._device msgs1 } := by
    show (disconnect s3).1 = _
    rw [hs3, disconnect_some _ (subscribedClient (connectedClient s.host)) rfl]
  refine ⟨disconnect_fst_device s3, ?_, ?_⟩
  · rw [hs4]
    rfl
  · have hr4 : reachable s4.host = true := by
      rw [hs4]
      exact hr
    have hc5 : (connect reachable s4).1 = { s4 with _client := some (connectedClient s4.host) } := by
      rw [connect_ok s4 reachable hr4]
    have hc6 : (subscribe (connect reachable s4).1).1 =
        { s4 with _client := some (subscribedClient (connectedClient s4.host)) } := by
      rw [hc5, subscribe_some _ (connectedClient s4.host) rfl]
    show (deliveryLoop ((subscribe (connect reachable s4).1).1, false) msgs2).1._device = _
    rw [hc6, deliveryLoop_fst]
    rw [hs4]

/-- Witness for C9 on the spec's example payloads. -/
theorem c9_disconnect_preserves_aggregate_witness :
    (disconnect (deliveryLoop ((subscribe (connect (fun _h => true) (BambuLab.init "x")).1).1, false) [RawPayload.valid [("temp", Val.num 20)]]).1).1._device =
      (deliveryLoop ((subscribe (connect (fun _h => true) (BambuLab.init "x")).1).1, false) [RawPayload.valid [("temp", Val.num 20)]]).1._device ∧
    ((disconnect (deliveryLoop ((subscribe (connect (fun _h => true) (BambuLab.init "x")).1).1, false) [RawPayload.valid [("temp", Val.num 20)]]).1).1._client).isSome = true ∧
    (deliveryLoop ((subscribe (connect (fun _h => true) (disconnect (deliveryLoop ((subscribe (connect (fun _h => true) (BambuLab.init "x")).1).1, false) [RawPayload.valid [("temp", Val.num 20)]]).1).1).1).1, false) [RawPayload.valid [("fan", Val.str "on")]]).1._device =
      runMessages (runMessages (BambuLab.init "x")._device [RawPayload.valid [("temp", Val.num 20)]]) [RawPayload.valid [("fan", Val.str "on")]] :=
  c9_disconnect_preserves_aggregate (BambuLab.init "x") (fun _h => true)
    [RawPayload.valid [("temp", Val.num 20)]] [RawPayload.valid [("fan", Val.str "on")]] rfl
